import Mathlib

/-!
# VisionCore API — access-control and quota-enforcement engine, shallow embedding

This file embeds the access-control core of the VisionCore API repository in
Lean 4 and proves (or refutes) the specification's claims about it.

Embedded source files:
* `src/auth.py` — feature catalog `FEATURE_TIERS`, demo limit, the authorize
  dependency `get_current_user` (its inner `verify` coroutine), and the
  watermark routine `add_watermark`;
* `src/database.py` — `DatabaseManager.deduct_credit` (the credit helper; note
  that no request path in `src/main.py` invokes it);
* `src/webhook.py` — `verify_rapidapi_signature`, `generate_api_key`,
  `get_credits_for_plan`, and the three RapidAPI webhook handlers;
* `src/main.py` — how routes wire the auth dependency and the watermark.

External collaborators (the Supabase store, the HMAC-SHA256 primitive of the
`hmac`/`hashlib` libraries, PIL's text rasterizer and alpha compositor, and
`secrets` randomness) are modelled as explicit parameters: the store's answer
to a read is an input, the success of a store write is an input, and the
crypto / rasterizing primitives are function-valued parameters.  All decision
logic, string formatting, control flow (including Python `try`/`except`
blocks) and mutation discipline are translated from the source.
-/

namespace VisionCore

/-- Python `dict.get(k, default)` over an association-list rendering of a
Python dict literal (every key occurs once, as in a dict literal). -/
def dictGet {α : Type} (l : List (String × α)) (k : String) (d : α) : α :=
  match l with
  | [] => d
  | (k₁, v) :: t => if k = k₁ then v else dictGet t k d

/-- `FEATURE_TIERS` from `src/auth.py` lines 13-48: for each feature, the list
of tiers that have direct (full) access, written in ascending tier order. -/
def FEATURE_TIERS : List (String × List String) :=
  [ ("compress", ["free", "basic", "pro", "enterprise"]),
    ("palette", ["free", "basic", "pro", "enterprise"]),
    ("signature-rip", ["free", "basic", "pro", "enterprise"]),
    ("auto-tag", ["free", "basic", "pro", "enterprise"]),
    ("doc-scanner", ["free", "basic", "pro", "enterprise"]),
    ("convert-format", ["free", "basic", "pro", "enterprise"]),
    ("pixel-art", ["free", "basic", "pro", "enterprise"]),
    ("upscale", ["basic", "pro", "enterprise"]),
    ("remove-bg", ["basic", "pro", "enterprise"]),
    ("portrait-mode", ["basic", "pro", "enterprise"]),
    ("sticker-maker", ["basic", "pro", "enterprise"]),
    ("tattoo-preview", ["basic", "pro", "enterprise"]),
    ("size-visualizer", ["basic", "pro", "enterprise"]),
    ("ocr", ["basic", "pro", "enterprise"]),
    ("pdf-builder", ["basic", "pro", "enterprise"]),
    ("age-progression", ["pro", "enterprise"]),
    ("anime-style", ["pro", "enterprise"]),
    ("colorize", ["pro", "enterprise"]),
    ("instant-studio", ["pro", "enterprise"]),
    ("extend", ["pro", "enterprise"]),
    ("smart-classify", ["pro", "enterprise"]),
    ("magic-fill", ["enterprise"]),
    ("magic-erase", ["enterprise"]),
    ("vectorize", ["enterprise"]),
    ("privacy-blur", ["enterprise"]),
    ("nsfw-check", ["enterprise"]),
    ("outfit-changer", ["enterprise"]) ]

/-- `DEMO_LIMIT = 3` (`src/auth.py` line 50). -/
def DEMO_LIMIT : Nat := 3

/-- `FEATURE_TIERS.get(endpoint_category, ["enterprise"])`
(`src/auth.py` line 88): the allowed-tier list of a feature, defaulting to
`["enterprise"]` for a feature absent from the catalog. -/
def allowedTiers (endpoint_category : String) : List String :=
  dictGet FEATURE_TIERS endpoint_category ["enterprise"]

/-- The minimum tier granting full access to a feature, read off the source's
allowed-tier list: its first element (the table lists tiers in ascending
order; the exhaustion message on `src/auth.py` line 115 reads the same
element, `allowed_tiers[0]`).  Pure and total: every feature, known or not,
gets a tier. -/
def requiredTier (feature : String) : String :=
  (allowedTiers feature).headD ""

/-- The tier ordering free < basic < pro < enterprise; a tier's rank is its
index in this list. -/
def TIER_ORDER : List String := ["free", "basic", "pro", "enterprise"]

/-- Rank of a tier in the ordering. -/
def tierRank (t : String) : Nat := TIER_ORDER.indexOf t

/-! ## The authorize dependency (`get_current_user` in `src/auth.py`) -/

/-- One row of the Supabase `api_keys` table, with the fields the authorize
path reads: `key`, `tier` (`user_data.get("tier", "free")`), `demos_used`
(`user_data.get("demos_used", 0)`), `active` (`user_data.get("active",
True)`).  The `.get` defaults are applied by the row producer; note the table
has no credit column (`src/main.py` lines 94-102 insert exactly these
fields). -/
structure ApiKeyRecord where
  key : String
  tier : String
  demos_used : Nat
  active : Bool
deriving Repr, DecidableEq

/-- A FastAPI `HTTPException`: status code and detail string. -/
structure HttpError where
  code : Nat
  detail : String
deriving Repr, DecidableEq

/-- A Python exception as it travels through `try`/`except` blocks: either an
`HTTPException` or some other exception carrying its message. -/
inductive PyExc where
  | http (e : HttpError)
  | other (msg : String)
deriving Repr, DecidableEq

/-- Python `str(e)`: a Starlette/FastAPI `HTTPException` prints as
`"{status_code}: {detail}"`; any other exception prints its message. -/
def pyStr : PyExc → String
  | .http e => toString e.code ++ ": " ++ e.detail
  | .other msg => msg

/-- The user-context dict returned by `verify`.  The keyless free path
(`src/auth.py` line 66) returns only `tier` and `_demo_mode`, so `key` and
`demos_left` are `Option`s (`none` = field absent from the dict). -/
structure UserCtx where
  tier : String
  key : Option String
  demo_mode : Bool
  demos_left : Option Nat
deriving Repr, DecidableEq

/-- What the Supabase read on `src/auth.py` line 71 produces: the `execute()`
call raised, or it returned a row list (`result.data`). -/
inductive FetchResult where
  | failure (msg : String)
  | success (rows : List ApiKeyRecord)
deriving Repr, DecidableEq

/-- The body of the `try` block in `verify` (`src/auth.py` lines 70-81):
fetch the row, raise `HTTPException(401)` when `result.data` is empty, raise
`HTTPException(403)` when the row is inactive, otherwise yield the row. -/
def fetchUserBlock (read : FetchResult) : Except PyExc ApiKeyRecord :=
  match read with
  | .failure msg => .error (.other msg)
  | .success rows =>
    match rows with
    | [] => .error (.http ⟨401, "Invalid API Key"⟩)
    | user_data :: _ =>
      if user_data.active = false then .error (.http ⟨403, "API Key is disabled"⟩)
      else .ok user_data

/-- The detail string of the demo-exhaustion denial (`src/auth.py` lines
113-116): an f-string interpolating `DEMO_LIMIT` and
`allowed_tiers[0].upper()`. -/
def exhaustedDetail (allowed_tiers : List String) : String :=
  "Access Denied. You have used all " ++ toString DEMO_LIMIT ++
    " free demos for Pro features. Please upgrade to " ++
    (allowed_tiers.headD "").toUpper ++ " tier."

/-- Steps 3-5 of `verify` (`src/auth.py` lines 87-124), run after a row was
fetched for key `k`: permission check, demo logic, and the returned context.
The store write on lines 103-105 (`demos_used := user_demos + 1`) is modelled
by the returned record; `writeOk = false` is the case in which that
`update(...).execute()` raises, where the bare `except: pass` on lines
109-110 continues with `is_demo_mode` still `False` and the stored record
unchanged.  Returns (HTTP response, record as stored after the call). -/
def verifyPermissions (endpoint_category : String) (k : String)
    (user_data : ApiKeyRecord) (writeOk : Bool) :
    Except HttpError UserCtx × ApiKeyRecord :=
  let user_tier := user_data.tier
  let user_demos := user_data.demos_used
  let allowed_tiers := allowedTiers endpoint_category
  let has_direct_access := user_tier ∈ allowed_tiers
  if has_direct_access then
    (.ok ⟨user_tier, some k, false, some 0⟩, user_data)
  else if user_demos < DEMO_LIMIT then
    if writeOk then
      (.ok ⟨user_tier, some k, true, some (DEMO_LIMIT - (user_demos + 1))⟩,
        { user_data with demos_used := user_demos + 1 })
    else
      (.ok ⟨user_tier, some k, false, some 0⟩, user_data)
  else
    (.error ⟨403, exhaustedDetail allowed_tiers⟩, user_data)

/-- Put a post-call record back into the store snapshot: the update targets
the row the fetch returned (both filter on the same `key`). -/
def updateStore : FetchResult → ApiKeyRecord → FetchResult
  | .success (_ :: rest), r => .success (r :: rest)
  | s, _ => s

/-- The inner `verify` coroutine of `get_current_user` (`src/auth.py` lines
61-124), for endpoint category `endpoint_category`, presented key
`x_api_key` (`none` = header absent), store read result `read`, and
demo-write success `writeOk`.  Returns the HTTP response and the store
contents after the call.

Note the faithful `except Exception` behaviour on lines 83-85: the
`HTTPException(401, "Invalid API Key")` and `HTTPException(403, "API Key is
disabled")` raised *inside* the `try` block are themselves caught there and
re-raised as `HTTPException(500, "Authentication Service Error")`. -/
def verify (endpoint_category : String) (x_api_key : Option String)
    (read : FetchResult) (writeOk : Bool) :
    Except HttpError UserCtx × FetchResult :=
  match x_api_key with
  | none =>
    if endpoint_category ∈ ["compress", "palette"] then
      (.ok ⟨"free", none, false, none⟩, read)
    else
      (.error ⟨401, "Missing API Key"⟩, read)
  | some k =>
    match fetchUserBlock read with
    | .error _ => (.error ⟨500, "Authentication Service Error"⟩, read)
    | .ok user_data =>
      let (resp, rec') := verifyPermissions endpoint_category k user_data writeOk
      (resp, updateStore read rec')

/-! ## The billing store (`src/database.py`) -/

/-- One row of the Supabase `users` table as `DatabaseManager.get_user`
returns it: `api_key`, `plan_type`, `credits`, `total_calls`
(`user.get("total_calls", 0)`). -/
structure UserRec where
  api_key : String
  plan_type : String
  credits : Int
  total_calls : Nat
deriving Repr, DecidableEq

/-- `DatabaseManager.deduct_credit` (`src/database.py` lines 44-57), applied
to the row `get_user` fetched (`none` = no row, or `get_user` swallowed a
database error and returned `None`): when a row exists, store
`credits := max(0, credits - amount)` and `total_calls := total_calls + 1`;
otherwise do nothing.  Any exception is printed and swallowed — the function
never signals failure.  No route in `src/main.py` and no auth path invokes
this function. -/
def deduct_credit (user : Option UserRec) (amount : Int) : Option UserRec :=
  match user with
  | none => none
  | some u =>
    some { u with credits := max 0 (u.credits - amount),
                  total_calls := u.total_calls + 1 }

/-- A full authorized request as the routes in `src/main.py` wire it: the
route's only auth effect is the `Depends(check_access(...))` dependency —
the `verify` coroutine above; no route, dependency or service touches the
billing row (`DatabaseManager.deduct_credit` has no caller in the
repository), so the `users` row rides through unchanged. -/
def authorizeRequest (endpoint_category : String) (x_api_key : Option String)
    (read : FetchResult) (writeOk : Bool) (billing : Option UserRec) :
    (Except HttpError UserCtx × FetchResult) × Option UserRec :=
  (verify endpoint_category x_api_key read writeOk, billing)

/-! ## Webhooks (`src/webhook.py`) -/

/-- `verify_rapidapi_signature` (`src/webhook.py` lines 12-23).  The
HMAC-SHA256 hex digest primitive (`hmac.new(secret, payload,
sha256).hexdigest()`) is an explicit function parameter `hmacSha256Hex`;
`hmac.compare_digest` returns, functionally, string equality (its
implementation is constant-time, a timing property outside this model).
Python `if not RAPIDAPI_WEBHOOK_SECRET: return True` fires exactly when the
configured secret is the empty string (`os.getenv` default, `src/config.py`
line 18). -/
def verify_rapidapi_signature (secret : String)
    (hmacSha256Hex : String → List Nat → String)
    (payload : List Nat) (signature : String) : Bool :=
  if secret = "" then
    true
  else
    signature = hmacSha256Hex secret payload

/-- `generate_api_key` (`src/webhook.py` lines 25-28); `random_part` stands
for `secrets.token_urlsafe(32)`.  The `user_id` argument is unused by the
source body. -/
def generate_api_key (user_id : String) (plan : String)
    (random_part : String) : String :=
  "vcore_" ++ plan.toLower ++ "_" ++ random_part

/-- `get_credits_for_plan` (`src/webhook.py` lines 30-41). -/
def get_credits_for_plan (plan : String) : Int :=
  dictGet
    [ ("free", 50), ("basic", 50), ("starter", 1000), ("pro", 10000),
      ("mega", 10000), ("ultra", 10000), ("enterprise", 50000) ]
    plan.toLower 50

/-- The fields the webhook handlers read from the parsed JSON body:
`data.get("user", {}).get("id")`, `.get("email", "")` and
`data.get("subscription", {}).get("plan", ...)`; `none` models an absent
key. -/
structure EventPayload where
  user_id : Option String
  email : Option String
  plan : Option String
deriving Repr, DecidableEq

/-- A write the webhook handlers issue against Supabase. -/
inductive DbWrite where
  | addUser (api_key plan : String) (credits : Int)
  | insertRapidApiUser (rapidapi_user_id api_key email plan : String)
  | updateUserPlan (api_key plan : String) (credits : Int)
deriving Repr, DecidableEq

/-- Success body of `/webhook/rapidapi/subscribe`. -/
structure SubscribeOk where
  api_key : String
  plan : String
  credits : Int
deriving Repr, DecidableEq

/-- `rapidapi_subscribe` (`src/webhook.py` lines 43-93).  `body` is the raw
request bytes, `sigHeader` the `X-RapidAPI-Signature` header (its `.get`
default is `""`), `parsed` the result of `request.json()` (`none` = the JSON
decode raised), `random_part` the key randomness and `addUserOk` whether the
user-creation writes succeed (when they raise, the inner `except` raises
`HTTPException(400, "User already exists")` and no write is recorded).

Everything runs inside the outer `try`; its `except Exception` catches *all*
raised `HTTPException`s (403 invalid signature, 400 missing user ID, 400
user exists) and re-raises `HTTPException(500, str(e))`. -/
def rapidapi_subscribe (secret : String)
    (hmacSha256Hex : String → List Nat → String)
    (body : List Nat) (sigHeader : String) (parsed : Option EventPayload)
    (random_part : String) (addUserOk : Bool) :
    Except HttpError SubscribeOk × List DbWrite :=
  let inner : Except PyExc (SubscribeOk × List DbWrite) :=
    if verify_rapidapi_signature secret hmacSha256Hex body sigHeader = false then
      .error (.http ⟨403, "Invalid signature"⟩)
    else
      match parsed with
      | none => .error (.other "json decode error")
      | some data =>
        match data.user_id with
        | none => .error (.http ⟨400, "Missing user ID"⟩)
        | some rapidapi_user_id =>
          let user_email := data.email.getD ""
          let plan_name := (data.plan.getD "free").toUpper
          let api_key := generate_api_key rapidapi_user_id plan_name random_part
          let credits := get_credits_for_plan plan_name
          if addUserOk then
            .ok (⟨api_key, plan_name, credits⟩,
              [ .addUser api_key plan_name credits,
                .insertRapidApiUser rapidapi_user_id api_key user_email plan_name ])
          else
            .error (.http ⟨400, "User already exists"⟩)
  match inner with
  | .ok (r, ws) => (.ok r, ws)
  | .error e => (.error ⟨500, pyStr e⟩, [])

/-- Success body of `/webhook/rapidapi/upgrade`. -/
structure UpgradeOk where
  plan : String
  credits : Int
deriving Repr, DecidableEq

/-- `rapidapi_upgrade` (`src/webhook.py` lines 95-135).  `lookupKey` is the
`api_key` the `rapidapi_users` select returns for the event's user id
(`none` = `result.data` empty, which raises `HTTPException(404, "User not
found")`).  As in `rapidapi_subscribe`, every raised `HTTPException` is
caught by the outer `except Exception` and re-raised as 500 with
`str(e)`. -/
def rapidapi_upgrade (secret : String)
    (hmacSha256Hex : String → List Nat → String)
    (body : List Nat) (sigHeader : String) (parsed : Option EventPayload)
    (lookupKey : Option String) :
    Except HttpError UpgradeOk × List DbWrite :=
  let inner : Except PyExc (UpgradeOk × List DbWrite) :=
    if verify_rapidapi_signature secret hmacSha256Hex body sigHeader = false then
      .error (.http ⟨403, "Invalid signature"⟩)
    else
      match parsed with
      | none => .error (.other "json decode error")
      | some data =>
        let new_plan := (data.plan.getD "").toUpper
        match lookupKey with
        | none => .error (.http ⟨404, "User not found"⟩)
        | some api_key =>
          let new_credits := get_credits_for_plan new_plan
          .ok (⟨new_plan, new_credits⟩,
            [.updateUserPlan api_key new_plan new_credits])
  match inner with
  | .ok (r, ws) => (.ok r, ws)
  | .error e => (.error ⟨500, pyStr e⟩, [])

/-- `rapidapi_cancel` (`src/webhook.py` lines 137-173): same shape as
`rapidapi_upgrade`; on success it sets the user's plan to `"FREE"` with 0
credits and returns a message body (modelled by the write list). -/
def rapidapi_cancel (secret : String)
    (hmacSha256Hex : String → List Nat → String)
    (body : List Nat) (sigHeader : String) (parsed : Option EventPayload)
    (lookupKey : Option String) :
    Except HttpError String × List DbWrite :=
  let inner : Except PyExc (String × List DbWrite) :=
    if verify_rapidapi_signature secret hmacSha256Hex body sigHeader = false then
      .error (.http ⟨403, "Invalid signature"⟩)
    else
      match parsed with
      | none => .error (.other "json decode error")
      | some _ =>
        match lookupKey with
        | none => .error (.http ⟨404, "User not found"⟩)
        | some api_key =>
          .ok ("Subscription cancelled", [.updateUserPlan api_key "FREE" 0])
  match inner with
  | .ok (r, ws) => (.ok r, ws)
  | .error e => (.error ⟨500, pyStr e⟩, [])

/-! ## The watermark engine (`add_watermark`, `src/auth.py` lines 132-173)

PIL images are mutable heap objects: `ImageDraw.Draw(overlay)` paints onto
`overlay` in place, while `img.copy()`, `convert`, `Image.new` and
`Image.alpha_composite` allocate fresh objects.  The embedding therefore
passes an explicit object heap (ids to image values) and an allocation
counter, so that in-place mutation of one object and preservation of another
are distinguishable statements.  Pixel-exact text rasterization and PIL's
alpha-compositing arithmetic live inside the PIL library; they enter as
function parameters of a `RenderEnv`, as does the availability of the
`arial.ttf` font (`ImageFont.truetype` raising is the `try`/`except` on
lines 151-154). -/

/-- A PIL image value: size, mode, and an RGBA pixel map. -/
structure PILImage where
  width : Nat
  height : Nat
  mode : String
  pix : Nat → Nat → Nat × Nat × Nat × Nat

/-- `img.copy()`: same image value (the heap model allocates it under a
fresh id). -/
def PILImage.copy (img : PILImage) : PILImage := img

/-- `img.convert(mode)`: relabel the mode; dropping to `"RGB"` forces the
alpha channel to 255. -/
def PILImage.convert (img : PILImage) (m : String) : PILImage :=
  { img with mode := m,
             pix := fun x y =>
               let p := img.pix x y
               if m = "RGB" then (p.1, p.2.1, p.2.2.1, 255) else p }

/-- `Image.new(mode, size, color)`. -/
def imageNew (m : String) (size : Nat × Nat)
    (color : Nat × Nat × Nat × Nat) : PILImage :=
  ⟨size.1, size.2, m, fun _ _ => color⟩

/-- `draw.rectangle([(x0, y0), (x1, y1)], fill)`: paint the (inclusive)
box. -/
def drawRectangle (img : PILImage) (x0 y0 x1 y1 : Nat)
    (fill : Nat × Nat × Nat × Nat) : PILImage :=
  { img with pix := fun x y =>
      if x0 ≤ x ∧ x ≤ x1 ∧ y0 ≤ y ∧ y ≤ y1 then fill else img.pix x y }

/-- A font object: `ImageFont.truetype(name, size)` or
`ImageFont.load_default()`. -/
inductive Font where
  | truetype (name : String) (size : Nat)
  | defaultFont

/-- The PIL primitives the watermark routine calls but does not define:
whether `ImageFont.truetype("arial.ttf", ...)` succeeds, the text
rasterizer behind `draw.text`, and `Image.alpha_composite`. -/
structure RenderEnv where
  truetypeAvailable : Bool
  renderText : Font → String → Nat × Nat → Nat × Nat × Nat × Nat →
    PILImage → PILImage
  alphaComposite : PILImage → PILImage → PILImage

/-- The object heap: every id denotes an image object; `nextId` in the
functions below bounds the ids in use, so ids `≥ nextId` are fresh. -/
def Heap : Type := Nat → PILImage

/-- Overwrite one heap cell (an in-place mutation of that object). -/
def Heap.set (heap : Heap) (i : Nat) (v : PILImage) : Heap :=
  fun j => if j = i then v else heap j

/-- The body of `add_watermark` with the font already resolved (the
`try`/`except` of lines 151-154 picks it; see `add_watermark`).  Steps, in
source order: copy-and-convert the input (fresh object `nextId`), make the
transparent overlay (fresh object `nextId + 1`), draw the bottom bar and the
text onto the overlay in place, alpha-composite into a fresh combined image
converted to RGB (`nextId + 2`), and return its id.  `int(h * 0.08)` is
rendered as `8 * h / 100` (Python computes it through a float; the two agree
on all realistic heights and the claims do not depend on the bar size).
Returns (heap after, next fresh id, id of the returned image). -/
def add_watermark_core (env : RenderEnv) (font : Font) (heap : Heap)
    (nextId : Nat) (imgId : Nat) (demos_left : Int) : Heap × Nat × Nat :=
  let img := heap imgId
  let watermarked := img.copy.convert "RGBA"
  let wId := nextId
  let heap1 := heap.set wId watermarked
  let overlay := imageNew "RGBA" (watermarked.width, watermarked.height) (0, 0, 0, 0)
  let oId := nextId + 1
  let heap2 := heap1.set oId overlay
  let w := watermarked.width
  let h := watermarked.height
  let text := "VISIONCORE DEMO • " ++ toString demos_left ++ " Tries Left"
  let bar_height := 8 * h / 100
  let heap3 := heap2.set oId
    (drawRectangle (heap2 oId) 0 (h - bar_height) w h (0, 0, 0, 180))
  let text_x := w / 4
  let text_y := h - bar_height + bar_height / 4
  let heap4 := heap3.set oId
    (env.renderText font text (text_x, text_y) (255, 255, 255, 255) (heap3 oId))
  let combined := (env.alphaComposite (heap4 wId) (heap4 oId)).convert "RGB"
  let cId := nextId + 2
  let heap5 := heap4.set cId combined
  (heap5, nextId + 3, cId)

/-- `add_watermark(img, demos_left)` (`src/auth.py` lines 132-173): resolve
the font — `ImageFont.truetype("arial.ttf", int(h / 20))` when available,
else the `except` falls back to `ImageFont.load_default()` — then run the
drawing pipeline.  Total: no failure path remains once the font fallback is
taken. -/
def add_watermark (env : RenderEnv) (heap : Heap) (nextId : Nat)
    (imgId : Nat) (demos_left : Int) : Heap × Nat × Nat :=
  let font_size := (heap imgId).height / 20
  let font :=
    if env.truetypeAvailable then Font.truetype "arial.ttf" font_size
    else Font.defaultFont
  add_watermark_core env font heap nextId imgId demos_left

/-! ## Helper lemmas -/

/-- A key matching no entry of a dict yields the lookup default. -/
theorem dictGet_eq_default {α : Type} (l : List (String × α)) (k : String)
    (d : α) (h : ∀ p ∈ l, k ≠ p.1) : dictGet l k d = d := by
  induction l with
  | nil => rfl
  | cons p t ih =>
    cases p with
    | mk k₁ v =>
      have hk : k ≠ k₁ := h (k₁, v) (by simp)
      simp only [dictGet]
      rw [if_neg hk]
      exact ih (fun q hq => h q (by simp [hq]))

/-- A dict lookup yields the default or one of the stored values. -/
theorem dictGet_default_or_mem {α : Type} (l : List (String × α)) (k : String)
    (d : α) : dictGet l k d = d ∨ dictGet l k d ∈ l.map Prod.snd := by
  induction l with
  | nil => left; rfl
  | cons p t ih =>
    cases p with
    | mk k₁ v =>
      by_cases hk : k = k₁
      · right
        simp only [dictGet, if_pos hk]
        simp
      · simp only [dictGet, if_neg hk]
        rcases ih with h | h
        · left; exact h
        · right; simp [h]

/-- `allowedTiers` takes one of the four suffix values of the tier order:
the catalog stores nothing else and the default is `["enterprise"]`. -/
theorem allowedTiers_cases (f : String) :
    allowedTiers f = ["free", "basic", "pro", "enterprise"] ∨
      allowedTiers f = ["basic", "pro", "enterprise"] ∨
        allowedTiers f = ["pro", "enterprise"] ∨
          allowedTiers f = ["enterprise"] := by
  unfold allowedTiers
  rcases dictGet_default_or_mem FEATURE_TIERS f ["enterprise"] with h | h
  · right; right; right; exact h
  · simp only [FEATURE_TIERS, List.map_cons, List.map_nil, List.mem_cons,
      List.not_mem_nil, or_false] at h
    simp only [FEATURE_TIERS]
    rcases h with h|h|h|h|h|h|h|h|h|h|h|h|h|h|h|h|h|h|h|h|h|h|h|h|h|h|h <;>
      rw [h] <;> decide

/-- Membership in `TIER_ORDER`, spelled out. -/
theorem mem_TIER_ORDER {t : String} (ht : t ∈ TIER_ORDER) :
    t = "free" ∨ t = "basic" ∨ t = "pro" ∨ t = "enterprise" := by
  simpa [TIER_ORDER] using ht

/-! ## Claim theorems: the feature catalog -/

/-- **C6** — For every feature name absent from the feature catalog, the
required-tier lookup falls back to the maximum tier: the allowed-tier list
is `["enterprise"]`, so the required tier is `"enterprise"`.  The lookup is
a total Lean function with no error value, matching the contract of a pure
total lookup. -/
theorem unknown_feature_fail_closed (feature : String)
    (h : ∀ p ∈ FEATURE_TIERS, feature ≠ p.1) :
    allowedTiers feature = ["enterprise"] ∧
      requiredTier feature = "enterprise" := by
  have h1 : allowedTiers feature = ["enterprise"] :=
    dictGet_eq_default FEATURE_TIERS feature ["enterprise"] h
  refine ⟨h1, ?_⟩
  unfold requiredTier
  rw [h1]
  rfl

/-- Witness for C6 at the concrete unknown feature name `"magic-zoom"`. -/
theorem unknown_feature_fail_closed_witness :
    (∀ p ∈ FEATURE_TIERS, "magic-zoom" ≠ p.1) ∧
      (allowedTiers "magic-zoom" = ["enterprise"] ∧
        requiredTier "magic-zoom" = "enterprise") :=
  ⟨by decide, unknown_feature_fail_closed "magic-zoom" (by decide)⟩

/-- **C7** — Tier access is monotonic over free < basic < pro < enterprise:
whenever a tier has direct (full) access to a feature, every tier of equal
or higher rank also has direct access, for every feature string (known or
unknown to the catalog). -/
theorem tier_monotonic (feature t t' : String)
    (ht : t ∈ TIER_ORDER) (ht' : t' ∈ TIER_ORDER)
    (hle : tierRank t ≤ tierRank t')
    (hacc : t ∈ allowedTiers feature) :
    t' ∈ allowedTiers feature := by
  rcases mem_TIER_ORDER ht with rfl | rfl | rfl | rfl <;>
    rcases mem_TIER_ORDER ht' with rfl | rfl | rfl | rfl <;>
      rcases allowedTiers_cases feature with h | h | h | h <;>
        rw [h] at hacc ⊢ <;> revert hle hacc <;> decide

/-- Witness for C7: basic ≤ pro, basic unlocks `"upscale"`, hence pro
does. -/
theorem tier_monotonic_witness :
    ("basic" ∈ TIER_ORDER ∧ "pro" ∈ TIER_ORDER ∧
      tierRank "basic" ≤ tierRank "pro" ∧
        "basic" ∈ allowedTiers "upscale") ∧
      "pro" ∈ allowedTiers "upscale" :=
  ⟨by decide,
    tier_monotonic "upscale" "basic" "pro" (by decide) (by decide)
      (by decide) (by decide)⟩

/-! ## Claim theorems: the authorize path -/

/-- Every error the authorize path can produce carries status 401, 403 or
500: there is no credit-denial status (the spec's 429 "out of credits" in
particular never occurs). -/
theorem verify_error_codes (cat : String) (key? : Option String)
    (read : FetchResult) (w : Bool) (e : HttpError)
    (he : (verify cat key? read w).1 = .error e) :
    e.code = 401 ∨ e.code = 403 ∨ e.code = 500 := by
  rcases key? with _ | k
  · by_cases hc : cat ∈ (["compress", "palette"] : List String)
    · simp [verify, hc] at he
    · simp [verify, hc] at he
      rw [← he]
      simp
  · cases hf : fetchUserBlock read with
    | error pe =>
      simp [verify, hf] at he
      rw [← he]
      simp
    | ok rec =>
      simp only [verify, hf] at he
      unfold verifyPermissions at he
      by_cases h1 : rec.tier ∈ allowedTiers cat
      · simp [h1] at he
      · by_cases h2 : rec.demos_used < DEMO_LIMIT
        · cases w <;> simp [h1, h2] at he
        · simp [h1, h2] at he
          rw [← he]
          simp

/-- **C1** (amended) — The engine has no credit gate: the authorization
response is the same for every billing row (in particular for
`creditBalance = 0`), the billing row rides through untouched, and no
credit-denial outcome exists — every denial the engine can produce has
status 401, 403 or 500, never the spec's DENIED_NO_CREDIT / 429. -/
theorem no_credit_gate (cat : String) (key? : Option String)
    (read : FetchResult) (w : Bool) (billing billing' : Option UserRec) :
    ((authorizeRequest cat key? read w billing).1 =
      (authorizeRequest cat key? read w billing').1) ∧
      ((authorizeRequest cat key? read w billing).2 = billing) ∧
        (∀ e : HttpError, (verify cat key? read w).1 = .error e →
          e.code = 401 ∨ e.code = 403 ∨ e.code = 500) :=
  ⟨rfl, rfl, fun e he => verify_error_codes cat key? read w e he⟩

/-- Witness for C1 (amended): an ENTERPRISE key whose billing row holds 0
credits gets the same (granted) response as with 1000 credits. -/
theorem no_credit_gate_witness :
    ((authorizeRequest "upscale" (some "k-ent")
        (.success [⟨"k-ent", "enterprise", 0, true⟩]) true
        (some ⟨"k-ent", "ENTERPRISE", 0, 7⟩)).1 =
      (authorizeRequest "upscale" (some "k-ent")
        (.success [⟨"k-ent", "enterprise", 0, true⟩]) true
        (some ⟨"k-ent", "ENTERPRISE", 1000, 7⟩)).1) ∧
      ((authorizeRequest "upscale" (some "k-ent")
          (.success [⟨"k-ent", "enterprise", 0, true⟩]) true
          (some ⟨"k-ent", "ENTERPRISE", 0, 7⟩)).2 =
        some ⟨"k-ent", "ENTERPRISE", 0, 7⟩) ∧
        (∀ e : HttpError,
          (verify "upscale" (some "k-ent")
              (.success [⟨"k-ent", "enterprise", 0, true⟩]) true).1 = .error e →
            e.code = 401 ∨ e.code = 403 ∨ e.code = 500) :=
  no_credit_gate "upscale" (some "k-ent")
    (.success [⟨"k-ent", "enterprise", 0, true⟩]) true
    (some ⟨"k-ent", "ENTERPRISE", 0, 7⟩) (some ⟨"k-ent", "ENTERPRISE", 1000, 7⟩)

/-- C1 counterexample — the claim as stated is false on the code: a key
record with `creditBalance = 0` is *granted*.  Enterprise tier with 0
credits gets GRANTED_FULL; a free-tier key with 0 credits still gets its
demo grant (the computed demo grant is not overridden). -/
theorem credit_gate_counterexample :
    (authorizeRequest "upscale" (some "k-ent")
        (.success [⟨"k-ent", "enterprise", 0, true⟩]) true
        (some ⟨"k-ent", "ENTERPRISE", 0, 7⟩)).1.1 =
      .ok ⟨"enterprise", some "k-ent", false, some 0⟩ ∧
      (authorizeRequest "upscale" (some "k-free")
          (.success [⟨"k-free", "free", 0, true⟩]) true
          (some ⟨"k-free", "FREE", 0, 0⟩)).1.1 =
        .ok ⟨"free", some "k-free", true, some 2⟩ :=
  ⟨rfl, rfl⟩

/-- **C2** — failing input: a free-tier key with `demos_used = 0` requests
the BASIC-tier feature `"upscale"` and the demo-counter write to the store
fails (`writeOk = false`).  The bare `except: pass` (`src/auth.py` lines
109-110) resolves the request to a *grant*: the returned context even has
`_demo_mode = False` (so the response is not watermarked) and the stored
record is unchanged — not the denial the spec requires. -/
theorem write_failure_grants :
    verify "upscale" (some "k-free")
        (.success [⟨"k-free", "free", 0, true⟩]) false =
      (.ok ⟨"free", some "k-free", false, some 0⟩,
        .success [⟨"k-free", "free", 0, true⟩]) :=
  rfl

/-- **C4** (amended) — Authorization deducts nothing: the billing row is
returned unchanged by every authorized call.  The `deduct_credit` helper
itself — which no route or dependency invokes — sets the stored balance to
`max 0 (credits - amount)` and bumps `total_calls`, so a stored balance is
never negative after it runs. -/
theorem no_deduction_and_floor (cat : String) (key? : Option String)
    (read : FetchResult) (w : Bool) (billing : Option UserRec)
    (u : UserRec) (amount : Int) :
    ((authorizeRequest cat key? read w billing).2 = billing) ∧
      (deduct_credit (some u) amount =
        some { u with credits := max 0 (u.credits - amount),
                      total_calls := u.total_calls + 1 }) ∧
        (∀ u' : UserRec, deduct_credit (some u) amount = some u' →
          0 ≤ u'.credits) := by
  refine ⟨rfl, rfl, ?_⟩
  intro u' h
  simp only [deduct_credit, Option.some.injEq] at h
  rw [← h]
  exact le_max_left 0 _

/-- Witness for C4 (amended): a granted call leaves the billing row with 5
credits exactly as it was, and `deduct_credit` at balance 0 floors to 0. -/
theorem no_deduction_and_floor_witness :
    ((authorizeRequest "colorize" (some "k-pro")
        (.success [⟨"k-pro", "pro", 0, true⟩]) true
        (some ⟨"k-pro", "PRO", 5, 3⟩)).2 = some ⟨"k-pro", "PRO", 5, 3⟩) ∧
      (deduct_credit (some ⟨"k-pro", "PRO", 0, 3⟩) 1 =
        some ⟨"k-pro", "PRO", 0, 4⟩) ∧
        (0 ≤ (⟨"k-pro", "PRO", 0, 4⟩ : UserRec).credits) :=
  ⟨(no_deduction_and_floor "colorize" (some "k-pro")
      (.success [⟨"k-pro", "pro", 0, true⟩]) true
      (some ⟨"k-pro", "PRO", 5, 3⟩) ⟨"k-pro", "PRO", 0, 3⟩ 1).1,
    rfl,
    (no_deduction_and_floor "colorize" (some "k-pro")
      (.success [⟨"k-pro", "pro", 0, true⟩]) true
      (some ⟨"k-pro", "PRO", 5, 3⟩) ⟨"k-pro", "PRO", 0, 3⟩ 1).2.2
      ⟨"k-pro", "PRO", 0, 4⟩ rfl⟩

/-- C4 counterexample — the claim as stated is false on the code: a
successfully authorized PRO call (GRANTED_FULL) leaves the key's billing
balance at 5; the claim demands it drop to 4 before the decision is
returned. -/
theorem credit_decrement_counterexample :
    (authorizeRequest "colorize" (some "k-pro")
        (.success [⟨"k-pro", "pro", 0, true⟩]) true
        (some ⟨"k-pro", "PRO", 5, 3⟩)).1.1 =
      .ok ⟨"pro", some "k-pro", false, some 0⟩ ∧
      (authorizeRequest "colorize" (some "k-pro")
          (.success [⟨"k-pro", "pro", 0, true⟩]) true
          (some ⟨"k-pro", "PRO", 5, 3⟩)).2 = some ⟨"k-pro", "PRO", 5, 3⟩ :=
  ⟨rfl, rfl⟩

/-- **C5** (amended) — Precondition handling as implemented: a missing key
is rejected 401 "Missing API Key" *except* for the categories `"compress"`
and `"palette"`, which are granted a free-tier context with no key at all;
an unknown key and a disabled key are both rejected, but as
`500 "Authentication Service Error"` — the intended
`HTTPException(401, "Invalid API Key")` / `HTTPException(403, "API Key is
disabled")` are raised inside the `try` block and swallowed by its own
`except Exception` — and likewise a store failure during the read; in every
one of these paths the store is returned unchanged (no mutation). -/
theorem precondition_paths (cat k : String) (read : FetchResult) (w : Bool) :
    (cat ∉ (["compress", "palette"] : List String) →
      verify cat none read w = (.error ⟨401, "Missing API Key"⟩, read)) ∧
      (cat ∈ (["compress", "palette"] : List String) →
        verify cat none read w = (.ok ⟨"free", none, false, none⟩, read)) ∧
        (verify cat (some k) (.success []) w =
          (.error ⟨500, "Authentication Service Error"⟩, .success [])) ∧
          (∀ rec : ApiKeyRecord, rec.active = false →
            verify cat (some k) (.success [rec]) w =
              (.error ⟨500, "Authentication Service Error"⟩, .success [rec])) ∧
            (∀ msg, verify cat (some k) (.failure msg) w =
              (.error ⟨500, "Authentication Service Error"⟩, .failure msg)) := by
  refine ⟨fun h => ?_, fun h => ?_, ?_, fun rec hrec => ?_, fun msg => ?_⟩
  · simp [verify, h]
  · simp [verify, h]
  · simp [verify, fetchUserBlock]
  · simp [verify, fetchUserBlock, hrec]
  · simp [verify, fetchUserBlock]

/-- Witness for C5 (amended) at concrete inputs: missing key on
`"upscale"` is 401, and a disabled enterprise key is rejected (as 500) with
the store untouched. -/
theorem precondition_paths_witness :
    ("upscale" ∉ (["compress", "palette"] : List String) ∧
      verify "upscale" none (.success []) true =
        (.error ⟨401, "Missing API Key"⟩, .success [])) ∧
      ((⟨"k-dis", "enterprise", 0, false⟩ : ApiKeyRecord).active = false ∧
        verify "upscale" (some "k-dis")
            (.success [⟨"k-dis", "enterprise", 0, false⟩]) true =
          (.error ⟨500, "Authentication Service Error"⟩,
            .success [⟨"k-dis", "enterprise", 0, false⟩])) :=
  ⟨⟨by decide,
      (precondition_paths "upscale" "k-dis" (.success []) true).1 (by decide)⟩,
    ⟨rfl,
      (precondition_paths "upscale" "k-dis" (.success []) true).2.2.2.1
        ⟨"k-dis", "enterprise", 0, false⟩ rfl⟩⟩

/-- C5 counterexample — the claim as stated is false on the code: a missing
key on the `"compress"` endpoint is *granted* a free-tier context (neither
401 nor 403, and access is leaked), and a disabled key yields
`500 "Authentication Service Error"`, not a 403 "key disabled". -/
theorem precondition_claim_counterexample :
    (verify "compress" none (.success []) true =
      (.ok ⟨"free", none, false, none⟩, .success [])) ∧
      (verify "upscale" (some "k-dis")
          (.success [⟨"k-dis", "enterprise", 50, false⟩]) true =
        (.error ⟨500, "Authentication Service Error"⟩,
          .success [⟨"k-dis", "enterprise", 50, false⟩])) :=
  ⟨rfl, rfl⟩

/-! ## Claim theorems: the demo counter over request traces (C3) -/

/-- One request in a trace against a single key: the endpoint category and
whether the demo-counter store write would succeed. -/
structure Request where
  category : String
  writeOk : Bool
deriving Repr, DecidableEq

/-- Whether a response is a demo grant (`_demo_mode = True`). -/
def isDemoGrant : Except HttpError UserCtx → Bool
  | .ok ctx => ctx.demo_mode
  | .error _ => false

/-- Run a trace of requests for one key through steps 3-5 of the engine;
each request reads the record the previous one stored.  Yields the stored
record after the trace. -/
def runTrace (rec : ApiKeyRecord) : List Request → ApiKeyRecord
  | [] => rec
  | r :: rs =>
    runTrace (verifyPermissions r.category rec.key rec r.writeOk).2 rs

/-- How many demo grants the trace hands out for feature `f` — the model of
the spec's `demoUsage[f]` (the code keeps no per-feature counter, so the
per-feature demo usage of a key is the number of demo grants it received
for that feature). -/
def demoGrants (f : String) (rec : ApiKeyRecord) : List Request → Nat
  | [] => 0
  | r :: rs =>
    (if r.category = f ∧
        isDemoGrant (verifyPermissions r.category rec.key rec r.writeOk).1
      then 1 else 0)
      + demoGrants f (verifyPermissions r.category rec.key rec r.writeOk).2 rs

/-- How many demo grants the trace hands out in total. -/
def totalDemoGrants (rec : ApiKeyRecord) : List Request → Nat
  | [] => 0
  | r :: rs =>
    (if isDemoGrant (verifyPermissions r.category rec.key rec r.writeOk).1
      then 1 else 0)
      + totalDemoGrants (verifyPermissions r.category rec.key rec r.writeOk).2 rs

/-- One engine step only ever touches `demos_used`: key, tier and active
flag ride through; `demos_used` grows by exactly 1 on a demo grant and not
at all otherwise; and a demo grant presupposes `demos_used < DEMO_LIMIT`. -/
theorem verifyPermissions_step (cat k : String) (rec : ApiKeyRecord)
    (w : Bool) :
    ((verifyPermissions cat k rec w).2.key = rec.key ∧
      (verifyPermissions cat k rec w).2.tier = rec.tier ∧
        (verifyPermissions cat k rec w).2.active = rec.active) ∧
      (verifyPermissions cat k rec w).2.demos_used =
        rec.demos_used +
          (if isDemoGrant (verifyPermissions cat k rec w).1 then 1 else 0) ∧
        (isDemoGrant (verifyPermissions cat k rec w).1 = true →
          rec.demos_used < DEMO_LIMIT) := by
  unfold verifyPermissions
  by_cases h1 : rec.tier ∈ allowedTiers cat
  · simp [h1, isDemoGrant]
  · by_cases h2 : rec.demos_used < DEMO_LIMIT
    · cases w <;> simp [h1, h2, isDemoGrant]
    · simp [h1, h2, isDemoGrant]

/-- Key, tier and active flag are trace invariants. -/
theorem runTrace_fields (rec : ApiKeyRecord) (rs : List Request) :
    (runTrace rec rs).key = rec.key ∧ (runTrace rec rs).tier = rec.tier ∧
      (runTrace rec rs).active = rec.active := by
  induction rs generalizing rec with
  | nil => exact ⟨rfl, rfl, rfl⟩
  | cons r rs ih =>
    have hs := (verifyPermissions_step r.category rec.key rec r.writeOk).1
    have h := ih (verifyPermissions r.category rec.key rec r.writeOk).2
    simp only [runTrace]
    exact ⟨h.1.trans hs.1, (h.2.1).trans hs.2.1, (h.2.2).trans hs.2.2⟩

/-- The stored counter after a trace is the initial counter plus the number
of demo grants handed out. -/
theorem runTrace_demos (rec : ApiKeyRecord) (rs : List Request) :
    (runTrace rec rs).demos_used = rec.demos_used + totalDemoGrants rec rs := by
  induction rs generalizing rec with
  | nil => simp [runTrace, totalDemoGrants]
  | cons r rs ih =>
    have hs := (verifyPermissions_step r.category rec.key rec r.writeOk).2.1
    have h := ih (verifyPermissions r.category rec.key rec r.writeOk).2
    simp only [runTrace, totalDemoGrants]
    omega

/-- The counter stays below the demo limit: starting at or under
`DEMO_LIMIT`, the initial counter plus all demo grants never exceeds
`DEMO_LIMIT`. -/
theorem totalDemoGrants_le (rec : ApiKeyRecord) (rs : List Request)
    (h : rec.demos_used ≤ DEMO_LIMIT) :
    rec.demos_used + totalDemoGrants rec rs ≤ DEMO_LIMIT := by
  induction rs generalizing rec with
  | nil => simpa [totalDemoGrants]
  | cons r rs ih =>
    have hstep := verifyPermissions_step r.category rec.key rec r.writeOk
    have hd := hstep.2.1
    by_cases hg :
      isDemoGrant (verifyPermissions r.category rec.key rec r.writeOk).1 = true
    · have hlt : rec.demos_used < DEMO_LIMIT := hstep.2.2 hg
      rw [hg] at hd
      simp at hd
      have h2 := ih (verifyPermissions r.category rec.key rec r.writeOk).2
        (by omega)
      simp only [totalDemoGrants]
      rw [hg]
      simp only [if_pos trivial]
      omega
    · have hgf :
        isDemoGrant (verifyPermissions r.category rec.key rec r.writeOk).1 =
          false := by simpa using hg
      rw [hgf] at hd
      simp at hd
      have h2 := ih (verifyPermissions r.category rec.key rec r.writeOk).2
        (by omega)
      simp only [totalDemoGrants]
      rw [hgf]
      simp
      omega

/-- Per-feature demo grants are at most the total demo grants. -/
theorem demoGrants_le_total (f : String) (rec : ApiKeyRecord)
    (rs : List Request) :
    demoGrants f rec rs ≤ totalDemoGrants rec rs := by
  induction rs generalizing rec with
  | nil => exact Nat.le_refl 0
  | cons r rs ih =>
    have h := ih (verifyPermissions r.category rec.key rec r.writeOk).2
    simp only [demoGrants, totalDemoGrants]
    by_cases hg :
      isDemoGrant (verifyPermissions r.category rec.key rec r.writeOk).1 = true
    · rw [hg]
      by_cases hcat : r.category = f
      · subst hcat
        simp
        omega
      · simp [hcat]
        omega
    · have hgf :
        isDemoGrant (verifyPermissions r.category rec.key rec r.writeOk).1 =
          false := by simpa using hg
      rw [hgf]
      simp
      omega

/-- **C3** — For a fresh key (`demos_used = 0` as signup stores it), active,
whose tier does not unlock feature `f`: over every request trace, the
number of demo grants for `f` (the spec's `demoUsage[f]`) never exceeds
`DEMO_LIMIT = 3`; once the trace contains `DEMO_LIMIT` demo grants for `f`,
the next request for `f` — the one that would be the `DEMO_LIMIT + 1`-th
demo — is denied with status 403, the stored record (hence the counter) is
unchanged by it, and the denial message names the tier the feature
requires. -/
theorem demo_counter_bounded (rec : ApiKeyRecord) (rs : List Request)
    (f : String) (w : Bool) (h0 : rec.demos_used = 0)
    (hactive : rec.active = true) (htier : rec.tier ∉ allowedTiers f) :
    demoGrants f rec rs ≤ DEMO_LIMIT ∧
      (demoGrants f rec rs = DEMO_LIMIT →
        verify f (some (runTrace rec rs).key) (.success [runTrace rec rs]) w =
          (.error ⟨403, exhaustedDetail (allowedTiers f)⟩,
            .success [runTrace rec rs])) ∧
        exhaustedDetail (allowedTiers f) =
          "Access Denied. You have used all 3 free demos for Pro features. Please upgrade to "
            ++ (requiredTier f).toUpper ++ " tier." := by
  have htot := totalDemoGrants_le rec rs (by omega)
  have hd := demoGrants_le_total f rec rs
  refine ⟨by omega, fun h3 => ?_, rfl⟩
  have hfields := runTrace_fields rec rs
  have hdemos := runTrace_demos rec rs
  have hN3 : (runTrace rec rs).demos_used = 3 := by
    have : totalDemoGrants rec rs = 3 := by
      have : DEMO_LIMIT = 3 := rfl
      omega
    omega
  have hNa : (runTrace rec rs).active = true := by rw [hfields.2.2, hactive]
  have hNt : (runTrace rec rs).tier ∉ allowedTiers f := by
    rw [hfields.2.1]; exact htier
  simp only [verify, fetchUserBlock, hNa, Bool.true_eq_false, if_false]
  unfold verifyPermissions
  simp [hNt, hN3, updateStore, DEMO_LIMIT]

/-- Witness for C3: a fresh free-tier key, three demo calls to
`"upscale"`, then the fourth is the 403 exhaustion denial. -/
theorem demo_counter_bounded_witness :
    ((⟨"k-free", "free", 0, true⟩ : ApiKeyRecord).demos_used = 0 ∧
      (⟨"k-free", "free", 0, true⟩ : ApiKeyRecord).active = true ∧
        (⟨"k-free", "free", 0, true⟩ : ApiKeyRecord).tier ∉
          allowedTiers "upscale" ∧
          demoGrants "upscale" ⟨"k-free", "free", 0, true⟩
            [⟨"upscale", true⟩, ⟨"upscale", true⟩, ⟨"upscale", true⟩] =
            DEMO_LIMIT) ∧
      demoGrants "upscale" ⟨"k-free", "free", 0, true⟩
        [⟨"upscale", true⟩, ⟨"upscale", true⟩, ⟨"upscale", true⟩] ≤
        DEMO_LIMIT ∧
        verify "upscale"
          (some (runTrace ⟨"k-free", "free", 0, true⟩
            [⟨"upscale", true⟩, ⟨"upscale", true⟩, ⟨"upscale", true⟩]).key)
          (.success [runTrace ⟨"k-free", "free", 0, true⟩
            [⟨"upscale", true⟩, ⟨"upscale", true⟩, ⟨"upscale", true⟩]])
          true =
          (.error ⟨403, exhaustedDetail (allowedTiers "upscale")⟩,
            .success [runTrace ⟨"k-free", "free", 0, true⟩
              [⟨"upscale", true⟩, ⟨"upscale", true⟩, ⟨"upscale", true⟩]]) :=
  ⟨⟨rfl, rfl, by decide, by decide⟩,
    (demo_counter_bounded ⟨"k-free", "free", 0, true⟩
      [⟨"upscale", true⟩, ⟨"upscale", true⟩, ⟨"upscale", true⟩] "upscale"
      true rfl rfl (by decide)).1,
    (demo_counter_bounded ⟨"k-free", "free", 0, true⟩
      [⟨"upscale", true⟩, ⟨"upscale", true⟩, ⟨"upscale", true⟩] "upscale"
      true rfl rfl (by decide)).2.1 (by decide)⟩

/-! ## Claim theorems: webhooks -/

/-- **C8** — failing input: a configured secret `"shh"`, a payload whose
correct HMAC hex digest is `"expectedsig"`, and the presented signature
`"wrongsig"`.  `verify_rapidapi_signature` correctly computes `false`, and
the handler raises `HTTPException(403, "Invalid signature")` — but that
raise happens inside the handler's own `try`, whose `except Exception`
re-raises it as status 500 with detail `"403: Invalid signature"`
(`str(e)` of the caught `HTTPException`).  The claimed 403 response never
reaches the caller; no write is performed. -/
theorem webhook_invalid_signature_responds_500 :
    verify_rapidapi_signature "shh" (fun _ _ => "expectedsig") [1, 2, 3]
        "wrongsig" = false ∧
      rapidapi_subscribe "shh" (fun _ _ => "expectedsig") [1, 2, 3]
          "wrongsig" (some ⟨some "u1", some "u1@example.com", some "pro"⟩)
          "rand" true =
        (.error ⟨500, "403: Invalid signature"⟩, []) :=
  ⟨rfl, rfl⟩

/-- **C10** — With the webhook secret unset (empty string, the `os.getenv`
default), signature verification accepts every payload under every
signature and every HMAC primitive; consequently all three webhook handlers
behave identically for any two signature values, and a subscribe event is
fully processed (user created, key issued) with whatever signature is
presented. -/
theorem empty_secret_accepts_everything
    (hmacSha256Hex : String → List Nat → String) (payload : List Nat)
    (signature sig' : String) (parsed : Option EventPayload)
    (random_part : String) (addUserOk : Bool) (lookupKey : Option String) :
    verify_rapidapi_signature "" hmacSha256Hex payload signature = true ∧
      rapidapi_subscribe "" hmacSha256Hex payload signature parsed
          random_part addUserOk =
        rapidapi_subscribe "" hmacSha256Hex payload sig' parsed
          random_part addUserOk ∧
      rapidapi_upgrade "" hmacSha256Hex payload signature parsed lookupKey =
        rapidapi_upgrade "" hmacSha256Hex payload sig' parsed lookupKey ∧
      rapidapi_cancel "" hmacSha256Hex payload signature parsed lookupKey =
        rapidapi_cancel "" hmacSha256Hex payload sig' parsed lookupKey ∧
      ((rapidapi_subscribe "" hmacSha256Hex payload signature
          (some ⟨some "u1", some "u1@example.com", some "pro"⟩) "R"
          true).1.isOk = true ∧
        (rapidapi_subscribe "" hmacSha256Hex payload signature
          (some ⟨some "u1", some "u1@example.com", some "pro"⟩) "R"
          true).2.length = 2) := by
  exact ⟨rfl, rfl, rfl, rfl, rfl, rfl⟩

/-! ## Claim theorems: the watermark engine -/

/-- A concrete render environment for the witness: a text rasterizer and an
alpha compositor that return their image argument unchanged. -/
def idRenderEnv : RenderEnv :=
  ⟨true, fun _ _ _ _ img => img, fun img _ => img⟩

/-- A concrete heap for the witness: every id holds a 2×2 black RGB
image. -/
def constHeap : Heap := fun _ => ⟨2, 2, "RGB", fun _ _ => (0, 0, 0, 255)⟩

/-- **C9** — `add_watermark` allocates and returns a new image and mutates
no pre-existing object: every id below the allocation bound — in
particular the caller's input image — maps to exactly the value it held
before, the returned id is a fresh object distinct from the input, and
when the truetype font is unavailable the routine does not fail but runs
the identical pipeline with the default font (the function is total in
every case). -/
theorem add_watermark_frame (env : RenderEnv) (heap : Heap)
    (nextId imgId : Nat) (demos_left : Int) (h : imgId < nextId) :
    (∀ j, j < nextId →
      (add_watermark env heap nextId imgId demos_left).1 j = heap j) ∧
      ((add_watermark env heap nextId imgId demos_left).2.2 = nextId + 2) ∧
        imgId ≠ (add_watermark env heap nextId imgId demos_left).2.2 ∧
          (env.truetypeAvailable = false →
            add_watermark env heap nextId imgId demos_left =
              add_watermark_core env Font.defaultFont heap nextId imgId
                demos_left) := by
  refine ⟨fun j hj => ?_, rfl, ?_, fun hf => ?_⟩
  · have h1 : j ≠ nextId := by omega
    have h2 : j ≠ nextId + 1 := by omega
    have h3 : j ≠ nextId + 2 := by omega
    simp only [add_watermark, add_watermark_core, Heap.set]
    simp [h1, h2, h3]
  · have h2 :
      (add_watermark env heap nextId imgId demos_left).2.2 = nextId + 2 := rfl
    omega
  · unfold add_watermark
    rw [hf]
    simp

/-- Witness for C9 at a concrete input: input image at id 0, allocation
bound 1, 2 demos left. -/
theorem add_watermark_frame_witness :
    ((0 : Nat) < 1) ∧
      ((∀ j, j < 1 → (add_watermark idRenderEnv constHeap 1 0 2).1 j =
        constHeap j) ∧
        ((add_watermark idRenderEnv constHeap 1 0 2).2.2 = 1 + 2) ∧
          (0 : Nat) ≠ (add_watermark idRenderEnv constHeap 1 0 2).2.2 ∧
            (idRenderEnv.truetypeAvailable = false →
              add_watermark idRenderEnv constHeap 1 0 2 =
                add_watermark_core idRenderEnv Font.defaultFont constHeap 1
                  0 2)) :=
  ⟨by decide, add_watermark_frame idRenderEnv constHeap 1 0 2 (by decide)⟩

end VisionCore
